import Mathlib

/-!
Shallow embedding of the realtime `ConnectionManager` of
`src/ably/realtime/connection.py`, together with theorems settling the
frozen claims about it.

Modelling conventions:
* Python object state is an explicit `ConnectionManager` record; each
  handler is a pure function `ConnectionManager → ConnectionManager × List Effect`
  returning the mutated record and the ordered observable effects
  (event emissions, future settlements, protocol sends, awaits, raises).
* `asyncio.Future` slots are `Option FutState`: `none` is Python `None`
  (slot empty / cleared), `some .pending` an unsettled future,
  `some .cancelled` a cancelled one.  Settling a future is recorded as an
  effect and, where the source immediately clears the slot, the slot
  becomes `none`.
* `await` points are recorded as effects (`awaitConnected`, `awaitClosed`,
  `awaitPing`, `sleep`); each handler is modelled as one atomic run, so a
  handler that suspends is modelled as continuing past the await — except
  where the await can never resume, which the theorems point out.
* Timers and tasks (`transition_timer`, `suspend_timer`, `retry_timer`,
  the `__ttl_task` started by `__start_suspended_timer`) are `Bool`
  fields recording whether an un-fired (not-done) timer/task exists.
* Timestamps for ping latency are `ℚ` (abstracting `datetime.timestamp()`
  floats), and Python `round(x, 2)` is modelled as round-half-even at two
  decimals over `ℚ`.
-/

namespace Ably

/-- `ConnectionState` enum of `src/ably/realtime/connection.py`. -/
inductive ConnectionState where
  | initialized
  | connecting
  | connected
  | disconnected
  | closing
  | closed
  | failed
  | suspended
deriving DecidableEq, Repr

/-- `ConnectionEvent` enum: every `ConnectionState` member plus `UPDATE`. -/
inductive ConnectionEvent where
  | state (s : ConnectionState)
  | update
deriving DecidableEq, Repr

/-- Modelled from the spec: `AblyException` lives in `ably/util/exceptions.py`,
which is not under `src/`.  Per spec §7 the error record carries a human
message, a transport-level status code and an application code; matching the
taxonomy (`Timeout`: status 504, app code 50003) against the call sites
`AblyException("...", 504, 50003)` fixes the positional constructor order as
`(message, status_code, code)`. -/
structure AblyException where
  message : String
  status_code : Int
  code : Int
deriving DecidableEq, Repr

/-- `ConnectionStateChange` dataclass. -/
structure ConnectionStateChange where
  previous : ConnectionState
  current : ConnectionState
  event : ConnectionEvent
  reason : Option AblyException := none
deriving DecidableEq, Repr

/-- Modelled from the spec: `ConnectionDetails` (`ably/types/connectiondetails.py`
is not under `src/`).  Spec §3 records `connectionStateTtl` in ms plus opaque
fields the core stores but does not interpret. -/
structure ConnectionDetails where
  connection_state_ttl : Int
deriving DecidableEq, Repr

/-- Modelled from the spec: the options record (`ably/types/options.py` is not
under `src/`).  Spec §6 lists the options the core reads. -/
structure ClientOptions where
  realtime_request_timeout : Int
  connection_state_ttl : Int
  disconnected_retry_timeout : Int
  suspended_retry_timeout : Int
  connectivity_check_url : String
deriving DecidableEq, Repr

/-- State of a live `asyncio.Future` held in a slot. -/
inductive FutState where
  | pending
  | cancelled
deriving DecidableEq, Repr

/-- The slice of `WebSocketTransport` the manager reads: its
`is_connected` flag. -/
structure Transport where
  is_connected : Bool
deriving DecidableEq, Repr

/-- The mutable state of `ConnectionManager`. -/
structure ConnectionManager where
  state : ConnectionState
  connected_future : Option FutState
  closed_future : Option FutState
  ping_future : Option FutState
  ping_id : Option Nat
  fail_state : ConnectionState
  connection_details : Option ConnectionDetails
  /-- `True` when a not-done `__ttl_task` (a running `__start_suspended_timer`
  coroutine) exists. -/
  ttl_task : Bool
  suspend_timer : Bool
  transition_timer : Bool
  retry_timer : Bool
  transport : Option Transport
  options : ClientOptions
deriving DecidableEq, Repr

/-- Ordered observable effects of one handler run. -/
inductive Effect where
  /-- `self._emit('connectionstate', sc)` in `enact_state_change`. -/
  | emitConnectionState (sc : ConnectionStateChange)
  /-- `self._emit(ConnectionEvent.UPDATE, sc)` in `on_connected`. -/
  | emitUpdate (sc : ConnectionStateChange)
  /-- `self._emit('transport.pending', transport)`. -/
  | emitTransportPending
  /-- `connected_future.set_result(None)`. -/
  | resolveConnected
  /-- `connected_future.set_exception(e)`. -/
  | rejectConnected (e : AblyException)
  /-- `closed_future.set_result(None)`. -/
  | resolveClosed
  /-- `ping_future.set_result(None)`. -/
  | resolvePing
  /-- `send_protocol_message({"action": HEARTBEAT, "id": ping_id})`. -/
  | sendHeartbeat (id : Nat)
  /-- `asyncio.create_task(self.__start_suspended_timer())`. -/
  | startTtlTask
  /-- `asyncio.create_task(self.retry_connection_attempt())`. -/
  | startRetryTask
  /-- an `await` on the connected future. -/
  | awaitConnected
  /-- an `await` on the closed future. -/
  | awaitClosed
  /-- an `await` on the ping future. -/
  | awaitPing
  /-- `await asyncio.sleep(ms / 1000)`. -/
  | sleep (ms : Int)
  /-- `await self.transport.close()`. -/
  | closeTransport
  /-- `await self.transport.dispose()`. -/
  | disposeTransport
  /-- the handler raises this exception to its caller. -/
  | raiseExc (e : AblyException)
deriving DecidableEq, Repr

/-- `ConnectionManager.enact_state_change`: record previous state, assign the
new one, start the suspended-TTL task when entering `DISCONNECTED` with no
running (not-done) TTL task, then emit `connectionstate` with
`ConnectionStateChange(previous, state, state, reason)`. -/
def enact_state_change (cm : ConnectionManager) (s : ConnectionState)
    (reason : Option AblyException := none) : ConnectionManager × List Effect :=
  let prev := cm.state
  let cm1 := { cm with state := s }
  let (cm2, pre) :=
    if s = ConnectionState.disconnected ∧ cm1.ttl_task = false then
      ({ cm1 with ttl_task := true }, [Effect.startTtlTask])
    else (cm1, [])
  (cm2, pre ++ [Effect.emitConnectionState ⟨prev, s, ConnectionEvent.state s, reason⟩])

/-- `ConnectionManager._connect`: if `CONNECTED`, return; if `CONNECTING`,
(arm the connected future if absent and) await it; otherwise enact
`CONNECTING` and run `connect_impl` (new transport, `transport.pending`
emission, then await the connected future bounded by
`realtime_request_timeout`; the timeout branch is modelled by
`on_connection_attempt_done`). -/
def _connect (cm : ConnectionManager) : ConnectionManager × List Effect :=
  if cm.state = ConnectionState.connected then
    (cm, [])
  else if cm.state = ConnectionState.connecting then
    let cm1 := if cm.connected_future = none
      then { cm with connected_future := some FutState.pending } else cm
    (cm1, [Effect.awaitConnected])
  else
    let (cm1, e1) := enact_state_change cm ConnectionState.connecting none
    let cm2 := { cm1 with transport := some ⟨false⟩ }
    (cm2, e1 ++ [Effect.emitTransportPending, Effect.awaitConnected])

/-- `ConnectionManager.connect`: when no connected future exists, arm one and
spawn `_connect` (run synchronously here); finally `await self.__connected_future`. -/
def connect (cm : ConnectionManager) : ConnectionManager × List Effect :=
  if cm.connected_future ≠ none then
    (cm, [Effect.awaitConnected])
  else
    let cm1 := { cm with connected_future := some FutState.pending }
    let (cm2, e) := _connect cm1
    (cm2, e ++ [Effect.awaitConnected])

/-- `ConnectionManager.close`, run atomically; `close_response_timely` says
whether the `closed` future is settled before `realtime_request_timeout`
elapses in the `asyncio.wait_for`. -/
def close (cm : ConnectionManager) (close_response_timely : Bool) :
    ConnectionManager × List Effect :=
  if cm.state = ConnectionState.closed ∨ cm.state = ConnectionState.initialized
      ∨ cm.state = ConnectionState.failed then
    enact_state_change cm ConnectionState.closed none
  else if cm.state = ConnectionState.disconnected ∧ cm.transport ≠ none then
    let (cm1, e1) := enact_state_change { cm with transport := none }
      ConnectionState.closed none
    (cm1, Effect.disposeTransport :: e1)
  else
    let pre := if cm.state = ConnectionState.connecting
      then [Effect.awaitConnected] else []
    let (cm1, e1) := enact_state_change cm ConnectionState.closing none
    let cm2 := { cm1 with closed_future := some FutState.pending }
    let transport_connected := match cm2.transport with
      | some t => t.is_connected
      | none => false
    if transport_connected then
      if close_response_timely then
        let (cm3, e2) := enact_state_change cm2 ConnectionState.closed none
        let cm4 := { cm3 with ttl_task := false }
        (cm4, pre ++ e1 ++ [Effect.closeTransport, Effect.awaitClosed] ++ e2)
      else
        (cm2, pre ++ e1 ++ [Effect.closeTransport, Effect.awaitClosed,
          Effect.raiseExc ⟨"Timeout waiting for connection close response", 504, 50003⟩])
    else
      let (cm3, e2) := enact_state_change cm2 ConnectionState.closed none
      let cm4 := { cm3 with ttl_task := false }
      (cm4, pre ++ e1 ++ e2)

/-- The exception raised by `ping` in an invalid state, exactly as constructed
at the source: `AblyException("Cannot send ping request. Calling ping in
invalid state", 40000, 400)`. -/
def pingInvalidStateExc : AblyException :=
  ⟨"Cannot send ping request. Calling ping in invalid state", 40000, 400⟩

/-- Exception raised when awaiting an already-cancelled ping future. -/
def pingCancelledExc : AblyException :=
  ⟨"Ping request cancelled due to request timeout", 504, 50003⟩

/-- `ConnectionManager.ping`: if a ping future exists, await it (raising if it
was cancelled); otherwise arm a fresh ping future and, in
`{CONNECTED, CONNECTING}`, pick a fresh id (`get_random_id()`, supplied here
as `new_id`), send the `HEARTBEAT` frame and await the reply; in any other
state raise the invalid-state exception (leaving the just-armed slot in
place). -/
def ping (cm : ConnectionManager) (new_id : Nat) : ConnectionManager × List Effect :=
  match cm.ping_future with
  | some FutState.pending => (cm, [Effect.awaitPing])
  | some FutState.cancelled => (cm, [Effect.raiseExc pingCancelledExc])
  | none =>
    let cm1 := { cm with ping_future := some FutState.pending }
    if cm1.state = ConnectionState.connected ∨ cm1.state = ConnectionState.connecting then
      let cm2 := { cm1 with ping_id := some new_id }
      (cm2, [Effect.sendHeartbeat new_id, Effect.awaitPing])
    else
      (cm1, [Effect.raiseExc pingInvalidStateExc])

/-- Round-half-even to an integer (Python `round` semantics on exact values). -/
def round_half_even (x : ℚ) : ℤ :=
  let f := ⌊x⌋
  let frac := x - (f : ℚ)
  if frac < 1 / 2 then f
  else if 1 / 2 < frac then f + 1
  else if f % 2 = 0 then f else f + 1

/-- Python `round(x, 2)` on exact values: round-half-even at two decimals. -/
def pyRound2 (x : ℚ) : ℚ := (round_half_even (x * 100) : ℚ) / 100

/-- The value returned by a settled `ping`: `ping_start_time` and
`ping_end_time` are the two `datetime.now().timestamp()` readings (seconds);
the source returns `round((end - start) * 1000, 2)`. -/
def ping_response_time_ms (ping_start_time ping_end_time : ℚ) : ℚ :=
  pyRound2 ((ping_end_time - ping_start_time) * 1000)

/-- `ConnectionManager.on_connected`: mark the transport connected, settle and
clear the connected future, reset `fail_state` to `DISCONNECTED`, cancel the
TTL task, store the connection details; then emit `UPDATE` (state unchanged)
if already `CONNECTED`, else enact `CONNECTED`. -/
def on_connected (cm : ConnectionManager) (details : ConnectionDetails) :
    ConnectionManager × List Effect :=
  let cm1 := match cm.transport with
    | some t => { cm with transport := some { t with is_connected := true } }
    | none => cm
  let (cm2, e1) := match cm1.connected_future with
    | some FutState.pending =>
        ({ cm1 with connected_future := none }, [Effect.resolveConnected])
    | some FutState.cancelled => ({ cm1 with connected_future := none }, [])
    | none => (cm1, [])
  let cm3 := { cm2 with fail_state := ConnectionState.disconnected,
                        ttl_task := false,
                        connection_details := some details }
  if cm3.state = ConnectionState.connected then
    (cm3, e1 ++ [Effect.emitUpdate ⟨ConnectionState.connected, ConnectionState.connected,
      ConnectionEvent.update, none⟩])
  else
    let (cm4, e2) := enact_state_change cm3 ConnectionState.connected none
    (cm4, e1 ++ e2)

/-- `ConnectionManager.on_error`: for a connection-scope message (no
`channel` field) enact `FAILED`, reject the connected future if present,
dispose the transport if present, and re-raise. -/
def on_error (cm : ConnectionManager) (channel : Option Nat) (exc : AblyException) :
    ConnectionManager × List Effect :=
  if channel = none then
    let (cm1, e1) := enact_state_change cm ConnectionState.failed (some exc)
    let (cm2, e2) :=
      if cm1.connected_future ≠ none then
        ({ cm1 with connected_future := none }, [Effect.rejectConnected exc])
      else (cm1, [])
    let e3 := if cm2.transport ≠ none then [Effect.disposeTransport] else []
    (cm2, e1 ++ e2 ++ e3 ++ [Effect.raiseExc exc])
  else (cm, [])

/-- `ConnectionManager.on_closed`: dispose the transport if present and
resolve the closed future if armed and not done. -/
def on_closed (cm : ConnectionManager) : ConnectionManager × List Effect :=
  let e1 := if cm.transport ≠ none then [Effect.disposeTransport] else []
  match cm.closed_future with
  | some FutState.pending => ({ cm with closed_future := none }, e1 ++ [Effect.resolveClosed])
  | _ => (cm, e1)

/-- `ConnectionManager.on_heartbeat`: when a ping future exists and the
incoming id equals `self.__ping_id`, resolve it (unless cancelled) and clear
the slot; mismatching ids and absent pings change nothing. -/
def on_heartbeat (cm : ConnectionManager) (id : Option Nat) :
    ConnectionManager × List Effect :=
  match cm.ping_future with
  | none => (cm, [])
  | some f =>
    if cm.ping_id = id then
      ({ cm with ping_future := none },
        if f = FutState.pending then [Effect.resolvePing] else [])
    else (cm, [])

/-- `ConnectionManager.deactivate_transport`: drop the transport pointer and
enact `DISCONNECTED` with the given reason. -/
def deactivate_transport (cm : ConnectionManager) (reason : Option AblyException) :
    ConnectionManager × List Effect :=
  enact_state_change { cm with transport := none } ConnectionState.disconnected reason

/-- `ConnectionManager.cancel_transition_timer`. -/
def cancel_transition_timer (cm : ConnectionManager) : ConnectionManager :=
  { cm with transition_timer := false }

/-- `ConnectionManager.cancel_suspend_timer`: always resets `fail_state` to
`DISCONNECTED`, then cancels and clears the suspend timer if armed. -/
def cancel_suspend_timer (cm : ConnectionManager) : ConnectionManager :=
  { cm with fail_state := ConnectionState.disconnected, suspend_timer := false }

/-- `ConnectionManager.check_suspend_timer`: cancel the suspend timer unless
the new state is in `{CONNECTING, DISCONNECTED, SUSPENDED}`. -/
def check_suspend_timer (cm : ConnectionManager) (s : ConnectionState) :
    ConnectionManager :=
  if s = ConnectionState.connecting ∨ s = ConnectionState.disconnected
      ∨ s = ConnectionState.suspended then cm
  else cancel_suspend_timer cm

/-- `ConnectionManager.notify_state`: no-op when the state is unchanged;
otherwise cancel the transition timer, check the suspend timer, arm the retry
timer on `DISCONNECTED`/`SUSPENDED`, and enact the change. -/
def notify_state (cm : ConnectionManager) (s : ConnectionState)
    (reason : Option AblyException) : ConnectionManager × List Effect :=
  if s = cm.state then (cm, [])
  else
    let cm1 := cancel_transition_timer cm
    let cm2 := check_suspend_timer cm1 s
    let cm3 := if s = ConnectionState.disconnected ∨ s = ConnectionState.suspended
      then { cm2 with retry_timer := true } else cm2
    enact_state_change cm3 s reason

/-- `ConnectionManager.start_connect`: arm the suspend timer (if absent) and
the transition timer, then run `connect_base` (new transport,
`transport.pending` emission; the transport connected/failed continuations are
the separate `on_connected` / `on_error` handlers). -/
def start_connect (cm : ConnectionManager) : ConnectionManager × List Effect :=
  let cm1 := if cm.suspend_timer then cm else { cm with suspend_timer := true }
  let cm2 := { cm1 with transition_timer := true }
  let cm3 := { cm2 with transport := some ⟨false⟩ }
  (cm3, [Effect.emitTransportPending])

/-- `ConnectionManager.request_state`: ignore requests for the current state,
`CONNECTING` while `CONNECTED`, and `CLOSING` while `CLOSED`; otherwise enact
the state and, for `CONNECTING`, run `start_connect`. -/
def request_state (cm : ConnectionManager) (s : ConnectionState) :
    ConnectionManager × List Effect :=
  if s = cm.state then (cm, [])
  else if s = ConnectionState.connecting ∧ cm.state = ConnectionState.connected then
    (cm, [])
  else if s = ConnectionState.closing ∧ cm.state = ConnectionState.closed then
    (cm, [])
  else
    let (cm1, e1) := enact_state_change cm s none
    if s = ConnectionState.connecting then
      let (cm2, e2) := start_connect cm1
      (cm2, e1 ++ e2)
    else (cm1, e1)

/-- The transition-timer expiry callback (`on_transition_timer_expire` inside
`start_transition_timer`): if the timer is still armed, clear it and notify
`fail_state` with the request-timeout error. -/
def on_transition_timer_expire (cm : ConnectionManager) :
    ConnectionManager × List Effect :=
  if cm.transition_timer then
    let cm1 := { cm with transition_timer := false }
    notify_state cm1 cm1.fail_state
      (some ⟨"Connection cancelled due to request timeout", 504, 50003⟩)
  else (cm, [])

/-- The error constructed by the suspend-timer expiry callback:
`AblyException("Connection to server unavailable", 400, 80002)`. -/
def suspendExc : AblyException := ⟨"Connection to server unavailable", 400, 80002⟩

/-- The suspend-timer expiry callback (`on_suspend_timer_expire` inside
`start_suspend_timer`): if the timer is still armed, clear it, notify
`SUSPENDED` with the 80002 error, then set `fail_state := SUSPENDED` and drop
the cached connection details. -/
def on_suspend_timer_expire (cm : ConnectionManager) :
    ConnectionManager × List Effect :=
  if cm.suspend_timer then
    let cm1 := { cm with suspend_timer := false }
    let (cm2, e1) := notify_state cm1 ConnectionState.suspended (some suspendExc)
    ({ cm2 with fail_state := ConnectionState.suspended, connection_details := none }, e1)
  else (cm, [])

/-- The body of `__start_suspended_timer` (the `__ttl_task`): adopt the
server-supplied TTL if details are cached, sleep for `connection_state_ttl`,
then enact `SUSPENDED` with the RTN14e error, drop the details and set
`fail_state := SUSPENDED`; the task is then done. -/
def start_suspended_timer_body (cm : ConnectionManager) :
    ConnectionManager × List Effect :=
  let cm1 := match cm.connection_details with
    | some d => { cm with options :=
        { cm.options with connection_state_ttl := d.connection_state_ttl } }
    | none => cm
  let exc : AblyException :=
    ⟨"Exceeded connectionStateTtl while in DISCONNECTED state", 504, 50003⟩
  let (cm2, e1) := enact_state_change cm1 ConnectionState.suspended (some exc)
  ({ cm2 with connection_details := none, fail_state := ConnectionState.suspended,
              ttl_task := false },
    Effect.sleep cm1.options.connection_state_ttl :: e1)

/-- The retry-timer expiry callback (`on_retry_timeout` inside
`start_retry_timer`): clear the timer and request `CONNECTING`. -/
def on_retry_timer_expire (cm : ConnectionManager) : ConnectionManager × List Effect :=
  if cm.retry_timer then
    let cm1 := { cm with retry_timer := false }
    request_state cm1 ConnectionState.connecting
  else (cm, [])

/-- The reachability error constructed by `retry_connection_attempt`, exactly
as at the source: `AblyException("Unable to connect (network unreachable)",
80003, 404)` — i.e. positionally `status_code = 80003`, `code = 404`. -/
def unreachableExc : AblyException := ⟨"Unable to connect (network unreachable)", 80003, 404⟩

/-- `ConnectionManager.retry_connection_attempt`: sleep for the suspended or
disconnected retry timeout according to `fail_state`, then either
`try_connect` (probe reachable) or enact `fail_state` with the reachability
error.  `probe_ok` is the result of `check_connection()`. -/
def retry_connection_attempt (cm : ConnectionManager) (probe_ok : Bool) :
    ConnectionManager × List Effect :=
  let retry_timeout :=
    if cm.fail_state = ConnectionState.suspended
    then cm.options.suspended_retry_timeout
    else cm.options.disconnected_retry_timeout
  if probe_ok then
    let (cm1, e1) := _connect cm
    (cm1, Effect.sleep retry_timeout :: e1)
  else
    let (cm1, e1) := enact_state_change cm cm.fail_state (some unreachableExc)
    (cm1, Effect.sleep retry_timeout :: e1)

/-- `ConnectionManager.on_connection_attempt_done` for a completed connection
attempt task; `exc` is the task's exception (with external cancellation
already mapped to the timeout error), `none` for a clean finish. -/
def on_connection_attempt_done (cm : ConnectionManager) (exc : Option AblyException) :
    ConnectionManager × List Effect :=
  match exc with
  | none => (cm, [])
  | some e =>
    if cm.state = ConnectionState.closed ∨ cm.state = ConnectionState.failed then
      (cm, [])
    else if cm.state ≠ ConnectionState.disconnected then
      let (cm1, e1) :=
        if cm.connected_future ≠ none then
          ({ cm with connected_future := none }, [Effect.rejectConnected e])
        else (cm, [])
      let (cm2, e2) := enact_state_change cm1 ConnectionState.disconnected (some e)
      (cm2, e1 ++ e2 ++ [Effect.startRetryTask])
    else
      (cm, [Effect.startRetryTask])

/-- Outcome of the `httpx.get` inside `check_connection`: a response with a
status code and body text, or a network error (`httpx.HTTPError`). -/
inductive HttpGetResult where
  | response (status_code : Int) (text : String)
  | httpError
deriving DecidableEq, Repr

/-- Python `"yes" in text`: substring containment, as infix of the
character lists. -/
def containsYes (text : String) : Bool :=
  decide (List.IsInfix "yes".data text.data)

/-- `ConnectionManager.check_connection`: true iff the GET returned a status
in `[200, 300)` and either the configured URL differs from the default
connectivity-check URL or the body contains `"yes"`; any `httpx.HTTPError`
yields false. -/
def check_connection (connectivity_check_url default_connectivity_check_url : String)
    (result : HttpGetResult) : Bool :=
  match result with
  | HttpGetResult.response status_code text =>
    decide (200 ≤ status_code) && decide (status_code < 300) &&
      (decide (connectivity_check_url ≠ default_connectivity_check_url) || containsYes text)
  | HttpGetResult.httpError => false

/-- One externally-triggered operation on the manager: a user call, a
transport event, or a timer/task expiry (with the data each carries). -/
inductive Op where
  | connectOp
  | closeOp (close_response_timely : Bool)
  | pingOp (new_id : Nat)
  | onConnectedOp (details : ConnectionDetails)
  | onErrorOp (channel : Option Nat) (exc : AblyException)
  | onClosedOp
  | onHeartbeatOp (id : Option Nat)
  | deactivateTransportOp (reason : Option AblyException)
  | requestStateOp (s : ConnectionState)
  | notifyStateOp (s : ConnectionState) (reason : Option AblyException)
  | transitionTimerExpireOp
  | suspendTimerExpireOp
  | ttlTaskFireOp
  | retryTimerExpireOp
  | connectionAttemptDoneOp (exc : Option AblyException)
  | retryAttemptOp (probe_ok : Bool)
deriving DecidableEq, Repr

/-- Dispatch one operation to its handler. -/
def step (cm : ConnectionManager) : Op → ConnectionManager × List Effect
  | Op.connectOp => connect cm
  | Op.closeOp t => close cm t
  | Op.pingOp i => ping cm i
  | Op.onConnectedOp d => on_connected cm d
  | Op.onErrorOp ch e => on_error cm ch e
  | Op.onClosedOp => on_closed cm
  | Op.onHeartbeatOp i => on_heartbeat cm i
  | Op.deactivateTransportOp r => deactivate_transport cm r
  | Op.requestStateOp s => request_state cm s
  | Op.notifyStateOp s r => notify_state cm s r
  | Op.transitionTimerExpireOp => on_transition_timer_expire cm
  | Op.suspendTimerExpireOp => on_suspend_timer_expire cm
  | Op.ttlTaskFireOp => start_suspended_timer_body cm
  | Op.retryTimerExpireOp => on_retry_timer_expire cm
  | Op.connectionAttemptDoneOp e => on_connection_attempt_done cm e
  | Op.retryAttemptOp p => retry_connection_attempt cm p

/-- The operations that reach `enact_state_change` without a
state-inequality guard and so can re-announce the current state: `close`
while already `CLOSED` or `CLOSING`, a connection-scope `ERROR` while already
`FAILED`, transport deactivation while already `DISCONNECTED`, the
suspended-TTL task firing while already `SUSPENDED`, and the retry probe
failing while already in `fail_state`. -/
def unguarded_reemission (cm : ConnectionManager) : Op → Bool
  | Op.closeOp _ =>
      decide (cm.state = ConnectionState.closed) || decide (cm.state = ConnectionState.closing)
  | Op.onErrorOp ch _ =>
      decide (ch = none) && decide (cm.state = ConnectionState.failed)
  | Op.deactivateTransportOp _ => decide (cm.state = ConnectionState.disconnected)
  | Op.ttlTaskFireOp => decide (cm.state = ConnectionState.suspended)
  | Op.retryAttemptOp probe_ok =>
      !probe_ok && decide (cm.state = cm.fail_state)
  | _ => false

/-- A concrete options record used by witnesses and counterexamples. -/
def sampleOptions : ClientOptions :=
  { realtime_request_timeout := 10000
    connection_state_ttl := 120000
    disconnected_retry_timeout := 15000
    suspended_retry_timeout := 30000
    connectivity_check_url := "https://example.com/check" }

/-- A concrete manager in the given state with every slot empty and every
timer unarmed. -/
def mkManager (s : ConnectionState) : ConnectionManager :=
  { state := s
    connected_future := none
    closed_future := none
    ping_future := none
    ping_id := none
    fail_state := ConnectionState.disconnected
    connection_details := none
    ttl_task := false
    suspend_timer := false
    transition_timer := false
    retry_timer := false
    transport := none
    options := sampleOptions }

/-- A concrete `ConnectionDetails` record. -/
def sampleDetails : ConnectionDetails := ⟨60000⟩

/-- The concrete manager for the C6 failing input: state `CLOSED`, no
outstanding ping. -/
def pingInvalidCM : ConnectionManager := mkManager ConnectionState.closed

/-- The concrete manager for the C5 failing input: `DISCONNECTED`, `fail_state`
`DISCONNECTED`, TTL task already running. -/
def retryFailCM : ConnectionManager :=
  { mkManager ConnectionState.disconnected with ttl_task := true }

/-- The concrete manager for the C2 counterexample: `CONNECTING` with the
suspend timer armed (as `start_connect` leaves it). -/
def c2CM : ConnectionManager :=
  { mkManager ConnectionState.connecting with suspend_timer := true }

/-- The concrete manager for the C4 counterexample: `CONNECTED` with the
connected slot cleared, exactly as `on_connected` leaves the manager. -/
def c4CM : ConnectionManager := mkManager ConnectionState.connected

/-- The concrete manager for the C1 counterexample: already `CLOSED`. -/
def c1CM : ConnectionManager := mkManager ConnectionState.closed

/-- A concrete manager with an outstanding ping whose id is `5`. -/
def pingArmedCM : ConnectionManager :=
  { mkManager ConnectionState.connected with
      ping_future := some FutState.pending, ping_id := some 5 }

/-- A concrete connectivity-check response body containing the token. -/
def yesBody : String := "internet is up: yes"

/-- C8: `check_connection` returns true if and only if the HTTP GET produced
a response whose status code lies in `[200, 300)` and, when the configured
URL equals the default connectivity-check URL, whose body contains the token
`"yes"`; a network error yields `false`.  The handler is a total function of
the GET outcome — the `except httpx.HTTPError` clause makes it never raise to
its caller. -/
theorem check_connection_spec (url default_url : String) (r : HttpGetResult) :
    check_connection url default_url r = true ↔
      ∃ s t, r = HttpGetResult.response s t ∧ 200 ≤ s ∧ s < 300 ∧
        (url = default_url → containsYes t = true) := by
  cases r with
  | response s t =>
      simp only [check_connection, Bool.and_eq_true, Bool.or_eq_true,
        decide_eq_true_eq, HttpGetResult.response.injEq]
      constructor
      · rintro ⟨⟨h1, h2⟩, h3⟩
        exact ⟨s, t, ⟨rfl, rfl⟩, h1, h2, fun heq => h3.resolve_left (by simp [heq])⟩
      · rintro ⟨s', t', ⟨rfl, rfl⟩, h1, h2, h3⟩
        refine ⟨⟨h1, h2⟩, ?_⟩
        by_cases heq : url = default_url
        · exact Or.inr (h3 heq)
        · exact Or.inl heq
  | httpError => simp [check_connection]

/-- C7: a heartbeat settles the outstanding ping exactly when its id equals
the stored ping id (the id sent with the `HEARTBEAT` frame); a mismatching id
or an absent ping leaves the slot as it was; and a ping timed at `t0`/`t1`
returns `round((t1 - t0) * 1000, 2)` milliseconds. -/
theorem on_heartbeat_spec (cm : ConnectionManager) (id : Option Nat) (t0 t1 : ℚ) :
    (Effect.resolvePing ∈ (on_heartbeat cm id).2 ↔
      cm.ping_future = some FutState.pending ∧ cm.ping_id = id) ∧
    ((on_heartbeat cm id).1.ping_future = none ↔
      cm.ping_future = none ∨ cm.ping_id = id) ∧
    ((on_heartbeat cm id).1.ping_future ≠ none → (on_heartbeat cm id).1 = cm) ∧
    ping_response_time_ms t0 t1 = pyRound2 ((t1 - t0) * 1000) := by
  refine ⟨?_, ?_, ?_, rfl⟩ <;>
    · unfold on_heartbeat
      rcases hf : cm.ping_future with _ | f
      · simp [hf]
      · cases f <;> by_cases hid : cm.ping_id = id <;> simp [hf, hid]

/-- C6 (evidence for the code bug): `ping()` in `CLOSED` with no outstanding
ping sends nothing and raises the exception constructed at the source as
`AblyException("Cannot send ping request. Calling ping in invalid state",
40000, 400)` — positionally `status_code = 40000` and application
`code = 400`, not application code 40000 as the spec requires. -/
theorem ping_invalid_state_code_swapped :
    (ping pingInvalidCM 7).2 = [Effect.raiseExc pingInvalidStateExc] ∧
    pingInvalidStateExc.code = 400 ∧
    pingInvalidStateExc.status_code = 40000 ∧
    ∀ i, Effect.sendHeartbeat i ∉ (ping pingInvalidCM 7).2 := by
  refine ⟨by decide, rfl, rfl, ?_⟩
  intro i
  simp [ping, pingInvalidCM, mkManager]

/-- C5 (evidence for the code bug): the retry path with a failed probe sleeps
for `disconnected_retry_timeout` and transitions back to `fail_state`, but
the reachability error is constructed at the source as
`AblyException("Unable to connect (network unreachable)", 80003, 404)` —
positionally `status_code = 80003` and application `code = 404`, not
application code 80003 as the spec requires; moreover no fresh retry is
armed: no retry timer and no retry task. -/
theorem retry_unreachable_code_swapped :
    (retry_connection_attempt retryFailCM false).2 =
      [Effect.sleep sampleOptions.disconnected_retry_timeout,
       Effect.emitConnectionState ⟨ConnectionState.disconnected,
         ConnectionState.disconnected,
         ConnectionEvent.state ConnectionState.disconnected, some unreachableExc⟩] ∧
    unreachableExc.code = 404 ∧
    unreachableExc.status_code = 80003 ∧
    (retry_connection_attempt retryFailCM false).1.retry_timer = false ∧
    Effect.startRetryTask ∉ (retry_connection_attempt retryFailCM false).2 := by
  refine ⟨by decide, rfl, rfl, by decide, by decide⟩

/-- C10: a first `ping()` in a state outside `{CONNECTED, CONNECTING}` arms
the ping slot, raises the invalid-state exception without clearing the slot,
and every subsequent `ping()` — in any state — merely awaits that same
never-settled slot: no invalid-state check runs and no `HEARTBEAT` frame is
sent. -/
theorem ping_slot_leak (cm : ConnectionManager) (id1 id2 : Nat)
    (s' : ConnectionState)
    (h1 : cm.ping_future = none)
    (h2 : cm.state ≠ ConnectionState.connected)
    (h3 : cm.state ≠ ConnectionState.connecting) :
    (ping cm id1).1.ping_future = some FutState.pending ∧
    (ping cm id1).2 = [Effect.raiseExc pingInvalidStateExc] ∧
    ping { (ping cm id1).1 with state := s' } id2 =
      ({ (ping cm id1).1 with state := s' }, [Effect.awaitPing]) := by
  unfold ping
  simp [h1, h2, h3]

/-- Witness for `ping_slot_leak` at the concrete input `mkManager CLOSED`
(second call retried from `CONNECTED`). -/
theorem ping_slot_leak_witness :
    (mkManager ConnectionState.closed).ping_future = none ∧
    ((ping (mkManager ConnectionState.closed) 1).1.ping_future =
        some FutState.pending ∧
      (ping (mkManager ConnectionState.closed) 1).2 =
        [Effect.raiseExc pingInvalidStateExc] ∧
      ping { (ping (mkManager ConnectionState.closed) 1).1 with
               state := ConnectionState.connected } 2 =
        ({ (ping (mkManager ConnectionState.closed) 1).1 with
             state := ConnectionState.connected }, [Effect.awaitPing])) :=
  ⟨rfl, ping_slot_leak (mkManager ConnectionState.closed) 1 2
    ConnectionState.connected rfl (by decide) (by decide)⟩

/-- C3: when the armed suspend timer expires, the manager ends in `SUSPENDED`
with `fail_state = SUSPENDED` and the cached connection details cleared, the
timer is disarmed, and — whenever a transition actually occurs — the single
`connectionstate` emission carries the error whose application code is 80002. -/
theorem suspend_timer_expiry_spec (cm : ConnectionManager)
    (h : cm.suspend_timer = true) :
    (on_suspend_timer_expire cm).1.state = ConnectionState.suspended ∧
    (on_suspend_timer_expire cm).1.fail_state = ConnectionState.suspended ∧
    (on_suspend_timer_expire cm).1.connection_details = none ∧
    (on_suspend_timer_expire cm).1.suspend_timer = false ∧
    suspendExc.code = 80002 ∧
    (cm.state ≠ ConnectionState.suspended →
      (on_suspend_timer_expire cm).2 =
        [Effect.emitConnectionState ⟨cm.state, ConnectionState.suspended,
          ConnectionEvent.state ConnectionState.suspended, some suspendExc⟩]) := by
  unfold on_suspend_timer_expire notify_state check_suspend_timer
    cancel_transition_timer cancel_suspend_timer enact_state_change
  by_cases hs : cm.state = ConnectionState.suspended
  · simp [h, hs, suspendExc]
  · have hs' : ¬(ConnectionState.suspended = cm.state) := fun e => hs e.symm
    simp [h, hs, hs', suspendExc]

/-- Witness for `suspend_timer_expiry_spec` at a concrete `CONNECTING`
manager with the suspend timer armed. -/
theorem suspend_timer_expiry_spec_witness :
    ({ mkManager ConnectionState.connecting with
        suspend_timer := true } : ConnectionManager).suspend_timer = true ∧
    ((on_suspend_timer_expire { mkManager ConnectionState.connecting with
        suspend_timer := true }).1.state = ConnectionState.suspended ∧
      (on_suspend_timer_expire { mkManager ConnectionState.connecting with
        suspend_timer := true }).1.fail_state = ConnectionState.suspended ∧
      (on_suspend_timer_expire { mkManager ConnectionState.connecting with
        suspend_timer := true }).1.connection_details = none ∧
      (on_suspend_timer_expire { mkManager ConnectionState.connecting with
        suspend_timer := true }).1.suspend_timer = false ∧
      suspendExc.code = 80002 ∧
      (({ mkManager ConnectionState.connecting with
            suspend_timer := true } : ConnectionManager).state ≠
          ConnectionState.suspended →
        (on_suspend_timer_expire { mkManager ConnectionState.connecting with
          suspend_timer := true }).2 =
          [Effect.emitConnectionState ⟨ConnectionState.connecting,
            ConnectionState.suspended,
            ConnectionEvent.state ConnectionState.suspended, some suspendExc⟩])) :=
  ⟨rfl, suspend_timer_expiry_spec
    { mkManager ConnectionState.connecting with suspend_timer := true } rfl⟩

/-- C2 counterexample: handling a `CONNECTED` frame does *not* cancel the
suspend timer (`self.suspend_timer`, the timer that
`cancel_suspend_timer` manages): `on_connected` cancels only the
suspended-TTL task `self.__ttl_task`, and an armed suspend timer stays armed
across it. -/
theorem on_connected_leaves_suspend_timer :
    c2CM.suspend_timer = true ∧
    (on_connected c2CM sampleDetails).1.suspend_timer = true := by
  constructor <;> rfl

/-- C2 amended: `on_connected` resolves and clears the connected slot, resets
`fail_state` to `DISCONNECTED`, cancels the suspended-TTL task (but leaves
the `suspend_timer` field untouched), stores the received connection details,
and either emits `UPDATE` without any `connectionstate` emission (already
`CONNECTED`) or transitions to `CONNECTED`. -/
theorem on_connected_spec (cm : ConnectionManager) (d : ConnectionDetails) :
    (on_connected cm d).1.connected_future = none ∧
    (cm.connected_future = some FutState.pending →
      Effect.resolveConnected ∈ (on_connected cm d).2) ∧
    (on_connected cm d).1.fail_state = ConnectionState.disconnected ∧
    (on_connected cm d).1.ttl_task = false ∧
    (on_connected cm d).1.connection_details = some d ∧
    (on_connected cm d).1.suspend_timer = cm.suspend_timer ∧
    (on_connected cm d).1.state = ConnectionState.connected ∧
    (cm.state = ConnectionState.connected →
      (∀ sc, Effect.emitConnectionState sc ∉ (on_connected cm d).2) ∧
      Effect.emitUpdate ⟨ConnectionState.connected, ConnectionState.connected,
        ConnectionEvent.update, none⟩ ∈ (on_connected cm d).2) ∧
    (cm.state ≠ ConnectionState.connected →
      Effect.emitConnectionState ⟨cm.state, ConnectionState.connected,
        ConnectionEvent.state ConnectionState.connected, none⟩ ∈
        (on_connected cm d).2) := by
  unfold on_connected enact_state_change
  rcases ht : cm.transport with _ | t <;>
    rcases hf : cm.connected_future with _ | f <;>
    (try cases f) <;>
    by_cases hs : cm.state = ConnectionState.connected <;>
    simp [ht, hf, hs]

/-- Witness for `on_connected_spec` at a concrete `CONNECTING` manager with a
pending connected future. -/
theorem on_connected_spec_witness :
    (on_connected { mkManager ConnectionState.connecting with
        connected_future := some FutState.pending } sampleDetails).1.connected_future
        = none ∧
    (({ mkManager ConnectionState.connecting with
          connected_future := some FutState.pending } : ConnectionManager).connected_future
        = some FutState.pending →
      Effect.resolveConnected ∈ (on_connected { mkManager ConnectionState.connecting with
        connected_future := some FutState.pending } sampleDetails).2) ∧
    (on_connected { mkManager ConnectionState.connecting with
        connected_future := some FutState.pending } sampleDetails).1.fail_state
        = ConnectionState.disconnected ∧
    (on_connected { mkManager ConnectionState.connecting with
        connected_future := some FutState.pending } sampleDetails).1.ttl_task = false ∧
    (on_connected { mkManager ConnectionState.connecting with
        connected_future := some FutState.pending } sampleDetails).1.connection_details
        = some sampleDetails ∧
    (on_connected { mkManager ConnectionState.connecting with
        connected_future := some FutState.pending } sampleDetails).1.suspend_timer
        = ({ mkManager ConnectionState.connecting with
              connected_future := some FutState.pending } : ConnectionManager).suspend_timer ∧
    (on_connected { mkManager ConnectionState.connecting with
        connected_future := some FutState.pending } sampleDetails).1.state
        = ConnectionState.connected ∧
    (({ mkManager ConnectionState.connecting with
          connected_future := some FutState.pending } : ConnectionManager).state
        = ConnectionState.connected →
      (∀ sc, Effect.emitConnectionState sc ∉
        (on_connected { mkManager ConnectionState.connecting with
          connected_future := some FutState.pending } sampleDetails).2) ∧
      Effect.emitUpdate ⟨ConnectionState.connected, ConnectionState.connected,
        ConnectionEvent.update, none⟩ ∈
        (on_connected { mkManager ConnectionState.connecting with
          connected_future := some FutState.pending } sampleDetails).2) ∧
    (({ mkManager ConnectionState.connecting with
          connected_future := some FutState.pending } : ConnectionManager).state
        ≠ ConnectionState.connected →
      Effect.emitConnectionState ⟨ConnectionState.connecting, ConnectionState.connected,
        ConnectionEvent.state ConnectionState.connected, none⟩ ∈
        (on_connected { mkManager ConnectionState.connecting with
          connected_future := some FutState.pending } sampleDetails).2) :=
  on_connected_spec { mkManager ConnectionState.connecting with
    connected_future := some FutState.pending } sampleDetails

/-- C9: `close()` in any of `{CLOSED, INITIALIZED, FAILED}` transitions
directly to `CLOSED` (one emission) and returns; `close()` in `CONNECTING`
first awaits the connected pending result and only then enacts `CLOSING` —
the await strictly precedes the `CLOSING` emission. -/
theorem close_fast_paths_and_connecting (cm : ConnectionManager) (t : Bool) :
    (cm.state = ConnectionState.closed ∨ cm.state = ConnectionState.initialized ∨
        cm.state = ConnectionState.failed →
      close cm t = ({ cm with state := ConnectionState.closed },
        [Effect.emitConnectionState ⟨cm.state, ConnectionState.closed,
          ConnectionEvent.state ConnectionState.closed, none⟩])) ∧
    (cm.state = ConnectionState.connecting →
      List.take 2 (close cm t).2 =
        [Effect.awaitConnected,
         Effect.emitConnectionState ⟨ConnectionState.connecting, ConnectionState.closing,
           ConnectionEvent.state ConnectionState.closing, none⟩]) := by
  constructor
  · intro h
    unfold close enact_state_change
    have hne : cm.state ≠ ConnectionState.disconnected := by
      rcases h with h | h | h <;> simp [h]
    simp [h, hne]
  · intro h
    unfold close enact_state_change
    rcases htr : cm.transport with _ | tr
    · simp [h, htr]
    · cases hic : tr.is_connected <;> cases t <;> simp [h, htr, hic]

/-- Witness for `close_fast_paths_and_connecting`, discharging the fast-path
implication at a `FAILED` manager and the `CONNECTING` ordering at a
`CONNECTING` manager with a pending connected future. -/
theorem close_fast_paths_and_connecting_witness :
    close (mkManager ConnectionState.failed) true =
      ({ mkManager ConnectionState.failed with state := ConnectionState.closed },
        [Effect.emitConnectionState ⟨ConnectionState.failed, ConnectionState.closed,
          ConnectionEvent.state ConnectionState.closed, none⟩]) ∧
    List.take 2 (close { mkManager ConnectionState.connecting with
        connected_future := some FutState.pending } true).2 =
      [Effect.awaitConnected,
       Effect.emitConnectionState ⟨ConnectionState.connecting, ConnectionState.closing,
         ConnectionEvent.state ConnectionState.closing, none⟩] :=
  ⟨(close_fast_paths_and_connecting (mkManager ConnectionState.failed) true).1
      (by decide),
   (close_fast_paths_and_connecting { mkManager ConnectionState.connecting with
      connected_future := some FutState.pending } true).2 rfl⟩

/-- C4 counterexample: `connect()` on an already-`CONNECTED` manager does not
return immediately.  It arms a fresh connected future (the spawned `_connect`
task returns without settling it) and then suspends awaiting that still-pending
future — the call only completes if some later event settles the slot. -/
theorem connect_when_connected_blocks :
    (connect c4CM).1.connected_future = some FutState.pending ∧
    (connect c4CM).2 = [Effect.awaitConnected] := by
  constructor <;> rfl

/-- C4 amended: `connect()` on an already-`CONNECTED` manager (connected slot
empty) initiates no new attempt and emits no state change, but instead of
returning immediately it arms and awaits a fresh pending connected future;
`connect()` with a pending connected result (the `CONNECTING` case) awaits
that same result without starting a second attempt. -/
theorem connect_idempotency_amended (cm : ConnectionManager) :
    (cm.state = ConnectionState.connected ∧ cm.connected_future = none →
      connect cm = ({ cm with connected_future := some FutState.pending },
        [Effect.awaitConnected])) ∧
    (cm.connected_future = some FutState.pending →
      connect cm = (cm, [Effect.awaitConnected])) := by
  constructor
  · rintro ⟨hs, hf⟩
    unfold connect _connect
    simp [hs, hf]
  · intro hf
    unfold connect
    simp [hf]

/-- Witness for `connect_idempotency_amended`, discharging the `CONNECTED`
part at `mkManager CONNECTED` and the pending part at a `CONNECTING` manager
with a pending connected future. -/
theorem connect_idempotency_amended_witness :
    connect (mkManager ConnectionState.connected) =
      ({ mkManager ConnectionState.connected with
          connected_future := some FutState.pending }, [Effect.awaitConnected]) ∧
    connect { mkManager ConnectionState.connecting with
        connected_future := some FutState.pending } =
      ({ mkManager ConnectionState.connecting with
          connected_future := some FutState.pending }, [Effect.awaitConnected]) :=
  ⟨(connect_idempotency_amended (mkManager ConnectionState.connected)).1
      ⟨rfl, rfl⟩,
   (connect_idempotency_amended { mkManager ConnectionState.connecting with
      connected_future := some FutState.pending }).2 rfl⟩

/-- The effect list produced by `enact_state_change`: an optional TTL-task
start followed by the single `connectionstate` emission recording the
previous state, the new state, the new state as the event, and the reason. -/
theorem enact_emits (cm : ConnectionManager) (s : ConnectionState)
    (r : Option AblyException) :
    (enact_state_change cm s r).2 =
      (if s = ConnectionState.disconnected ∧ cm.ttl_task = false
        then [Effect.startTtlTask] else []) ++
      [Effect.emitConnectionState ⟨cm.state, s, ConnectionEvent.state s, r⟩] := by
  unfold enact_state_change
  by_cases hc : s = ConnectionState.disconnected ∧ cm.ttl_task = false <;> simp [hc]

/-- Any `connectionstate` emission of `enact_state_change` is exactly the
state change from the manager's prior state to `s` with event `s`. -/
theorem emit_mem_enact {cm : ConnectionManager} {s : ConnectionState}
    {r : Option AblyException} {sc : ConnectionStateChange}
    (h : Effect.emitConnectionState sc ∈ (enact_state_change cm s r).2) :
    sc = ⟨cm.state, s, ConnectionEvent.state s, r⟩ := by
  rw [enact_emits] at h
  rcases List.mem_append.mp h with h | h
  · split at h <;> simp_all
  · simp_all

/-- The manager after `enact_state_change` into a non-`DISCONNECTED` state:
only the state field changes. -/
theorem enact_fst_of_ne (cm : ConnectionManager) (s : ConnectionState)
    (r : Option AblyException) (hs : s ≠ ConnectionState.disconnected) :
    (enact_state_change cm s r).1 = { cm with state := s } := by
  unfold enact_state_change
  simp [hs]

/-- Specialization of `enact_fst_of_ne` to `CLOSING` (a simp-friendly form). -/
theorem enact_closing_fst (cm : ConnectionManager) (r : Option AblyException) :
    (enact_state_change cm ConnectionState.closing r).1 =
      { cm with state := ConnectionState.closing } :=
  enact_fst_of_ne cm ConnectionState.closing r (by decide)

/-- Specialization of `enact_fst_of_ne` to `FAILED` (a simp-friendly form). -/
theorem enact_failed_fst (cm : ConnectionManager) (r : Option AblyException) :
    (enact_state_change cm ConnectionState.failed r).1 =
      { cm with state := ConnectionState.failed } :=
  enact_fst_of_ne cm ConnectionState.failed r (by decide)

/-- Specialization of `enact_fst_of_ne` to `CLOSED` (a simp-friendly form). -/
theorem enact_closed_fst (cm : ConnectionManager) (r : Option AblyException) :
    (enact_state_change cm ConnectionState.closed r).1 =
      { cm with state := ConnectionState.closed } :=
  enact_fst_of_ne cm ConnectionState.closed r (by decide)

/-- C1 counterexample: `close()` on an already-`CLOSED` manager emits a
`connectionstate` change whose event is `CLOSED` (not `UPDATE`) and whose
previous and current states are both `CLOSED` — `enact_state_change` never
compares the new state with the old one on this path. -/
theorem close_reemits_closed :
    (step c1CM (Op.closeOp true)).2 =
      [Effect.emitConnectionState ⟨ConnectionState.closed, ConnectionState.closed,
        ConnectionEvent.state ConnectionState.closed, none⟩] ∧
    ConnectionEvent.state ConnectionState.closed ≠ ConnectionEvent.update := by
  exact ⟨rfl, by decide⟩

/-- `_connect` only emits `CONNECTING` from a state that is neither
`CONNECTED` nor `CONNECTING`. -/
theorem connect_task_emits_ne (cm : ConnectionManager) (sc : ConnectionStateChange)
    (h : Effect.emitConnectionState sc ∈ (_connect cm).2) :
    sc.previous ≠ sc.current := by
  unfold _connect at h
  by_cases h2 : cm.state = ConnectionState.connected
  · simp [h2] at h
  · by_cases h3 : cm.state = ConnectionState.connecting
    · simp [h2, h3] at h
    · simp [h2, h3, enact_emits] at h
      subst h
      simpa using h3

/-- `connect` only emits `CONNECTING` from a state that is neither
`CONNECTED` nor `CONNECTING`. -/
theorem connect_emits_ne (cm : ConnectionManager) (sc : ConnectionStateChange)
    (h : Effect.emitConnectionState sc ∈ (connect cm).2) :
    sc.previous ≠ sc.current := by
  unfold connect at h
  by_cases h1 : cm.connected_future = none
  · simp only [h1, ne_eq, not_true_eq_false, if_false] at h
    rcases hmc : _connect { cm with connected_future := some FutState.pending }
      with ⟨cm2, e⟩
    rw [hmc] at h
    simp at h
    exact connect_task_emits_ne _ sc (by rw [hmc]; exact h)
  · simp [h1] at h

/-- `close` from a state other than `CLOSED` and `CLOSING` never re-emits the
current state. -/
theorem close_emits_ne (cm : ConnectionManager) (t : Bool) (sc : ConnectionStateChange)
    (h1 : cm.state ≠ ConnectionState.closed) (h2 : cm.state ≠ ConnectionState.closing)
    (h : Effect.emitConnectionState sc ∈ (close cm t).2) :
    sc.previous ≠ sc.current := by
  unfold close at h
  by_cases hf : cm.state = ConnectionState.closed ∨ cm.state = ConnectionState.initialized ∨
      cm.state = ConnectionState.failed
  · simp [hf, enact_emits] at h
    subst h
    simpa using h1
  · by_cases hd : cm.state = ConnectionState.disconnected ∧ cm.transport ≠ none
    · simp [hf, hd, enact_emits] at h
      subst h
      simp [hd.1]
    · rcases htr : cm.transport with _ | tr
      · simp [hf, hd, htr, enact_emits, enact_closing_fst, enact_closed_fst] at h
        rcases h with h | h <;> subst h <;> simp [h2]
      · have hd' : cm.state ≠ ConnectionState.disconnected := by
          intro he
          exact hd ⟨he, by simp [htr]⟩
        cases hic : tr.is_connected <;> cases t <;>
          simp [hf, hd', htr, hic, enact_emits, enact_closing_fst, enact_closed_fst] at h <;>
          first
            | (rcases h with h | h <;> subst h <;> simp [h2])
            | (subst h; simp [h2])

/-- `on_connected` only emits a `connectionstate` change when moving from a
non-`CONNECTED` state to `CONNECTED`. -/
theorem on_connected_emits_ne (cm : ConnectionManager) (d : ConnectionDetails)
    (sc : ConnectionStateChange)
    (h : Effect.emitConnectionState sc ∈ (on_connected cm d).2) :
    sc.previous ≠ sc.current := by
  unfold on_connected at h
  rcases ht : cm.transport with _ | tr <;>
    rcases hf : cm.connected_future with _ | f <;>
    (try cases f) <;>
    by_cases hs : cm.state = ConnectionState.connected <;>
    simp [ht, hf, hs, enact_emits] at h <;>
    (subst h; simpa using hs)

/-- `on_error` on a connection-scope message only emits `FAILED` from a
non-`FAILED` state. -/
theorem on_error_emits_ne (cm : ConnectionManager) (ch : Option Nat)
    (exc : AblyException) (sc : ConnectionStateChange)
    (hg : ¬(ch = none ∧ cm.state = ConnectionState.failed))
    (h : Effect.emitConnectionState sc ∈ (on_error cm ch exc).2) :
    sc.previous ≠ sc.current := by
  unfold on_error at h
  by_cases hch : ch = none
  · have hs : cm.state ≠ ConnectionState.failed := fun he => hg ⟨hch, he⟩
    by_cases hcf : cm.connected_future = none <;>
      by_cases htr : cm.transport = none <;>
      simp [hch, hcf, htr, enact_emits, enact_failed_fst] at h <;>
      (subst h; simpa using hs)
  · simp [hch] at h

/-- `deactivate_transport` only emits `DISCONNECTED` from a
non-`DISCONNECTED` state. -/
theorem deactivate_transport_emits_ne (cm : ConnectionManager)
    (r : Option AblyException) (sc : ConnectionStateChange)
    (hs : cm.state ≠ ConnectionState.disconnected)
    (h : Effect.emitConnectionState sc ∈ (deactivate_transport cm r).2) :
    sc.previous ≠ sc.current := by
  unfold deactivate_transport at h
  have := emit_mem_enact h
  subst this
  simpa using hs

/-- `notify_state` guards on state inequality, so its emission never repeats
the current state. -/
theorem notify_state_emits_ne (cm : ConnectionManager) (s : ConnectionState)
    (r : Option AblyException) (sc : ConnectionStateChange)
    (h : Effect.emitConnectionState sc ∈ (notify_state cm s r).2) :
    sc.previous ≠ sc.current := by
  unfold notify_state at h
  by_cases hg : s = cm.state
  · simp [hg] at h
  · simp only [hg, if_false] at h
    have hsc := emit_mem_enact h
    subst hsc
    intro he
    dsimp at he
    apply hg
    refine Eq.symm ?_
    revert he
    unfold check_suspend_timer cancel_suspend_timer cancel_transition_timer
    split <;> split <;> simp

/-- `request_state` guards on state inequality, so its emission never repeats
the current state. -/
theorem request_state_emits_ne (cm : ConnectionManager) (s : ConnectionState)
    (sc : ConnectionStateChange)
    (h : Effect.emitConnectionState sc ∈ (request_state cm s).2) :
    sc.previous ≠ sc.current := by
  unfold request_state at h
  by_cases hg : s = cm.state
  · simp [hg] at h
  · by_cases hc1 : s = ConnectionState.connecting ∧ cm.state = ConnectionState.connected
    · simp [hg, hc1] at h
    · by_cases hc2 : s = ConnectionState.closing ∧ cm.state = ConnectionState.closed
      · simp [hg, hc1, hc2] at h
      · by_cases hcn : s = ConnectionState.connecting
        · subst hcn
          have hco : cm.state ≠ ConnectionState.connected := fun he => hc1 ⟨rfl, he⟩
          simp [hg, hco, enact_emits, start_connect] at h
          subst h
          simp
          exact fun he => hg he.symm
        · simp [hg, hc1, hc2, hcn] at h
          have hsc := emit_mem_enact h
          subst hsc
          simp
          exact fun he => hg he.symm

/-- `ping` never emits a `connectionstate` change. -/
theorem ping_no_state_emission (cm : ConnectionManager) (i : Nat)
    (sc : ConnectionStateChange) :
    Effect.emitConnectionState sc ∉ (ping cm i).2 := by
  unfold ping
  rcases hf : cm.ping_future with _ | f
  · by_cases hs : cm.state = ConnectionState.connected ∨ cm.state = ConnectionState.connecting <;>
      simp [hf, hs]
  · cases f <;> simp [hf]

/-- `on_closed` never emits a `connectionstate` change. -/
theorem on_closed_no_state_emission (cm : ConnectionManager)
    (sc : ConnectionStateChange) :
    Effect.emitConnectionState sc ∉ (on_closed cm).2 := by
  unfold on_closed
  rcases hf : cm.closed_future with _ | f <;>
    (try cases f) <;>
    by_cases htr : cm.transport = none <;>
    simp [hf, htr]

/-- `on_heartbeat` never emits a `connectionstate` change. -/
theorem on_heartbeat_no_state_emission (cm : ConnectionManager) (id : Option Nat)
    (sc : ConnectionStateChange) :
    Effect.emitConnectionState sc ∉ (on_heartbeat cm id).2 := by
  unfold on_heartbeat
  rcases hf : cm.ping_future with _ | f <;>
    (try cases f) <;>
    by_cases hid : cm.ping_id = id <;>
    simp [hf, hid]

/-- The transition-timer expiry only notifies `fail_state`, which
`notify_state` guards. -/
theorem transition_timer_emits_ne (cm : ConnectionManager)
    (sc : ConnectionStateChange)
    (h : Effect.emitConnectionState sc ∈ (on_transition_timer_expire cm).2) :
    sc.previous ≠ sc.current := by
  unfold on_transition_timer_expire at h
  by_cases htt : cm.transition_timer
  · simp only [htt, if_true] at h
    exact notify_state_emits_ne _ _ _ _ h
  · simp [htt] at h

/-- The suspend-timer expiry only notifies `SUSPENDED`, which `notify_state`
guards. -/
theorem suspend_timer_emits_ne (cm : ConnectionManager)
    (sc : ConnectionStateChange)
    (h : Effect.emitConnectionState sc ∈ (on_suspend_timer_expire cm).2) :
    sc.previous ≠ sc.current := by
  unfold on_suspend_timer_expire at h
  by_cases hst : cm.suspend_timer
  · simp only [hst, if_true] at h
    rcases hns : notify_state { cm with suspend_timer := false }
        ConnectionState.suspended (some suspendExc) with ⟨cm2, e⟩
    rw [hns] at h
    exact notify_state_emits_ne _ _ _ _ (by rw [hns]; exact h)
  · simp [hst] at h

/-- The retry-timer expiry only requests `CONNECTING`, which `request_state`
guards. -/
theorem retry_timer_emits_ne (cm : ConnectionManager)
    (sc : ConnectionStateChange)
    (h : Effect.emitConnectionState sc ∈ (on_retry_timer_expire cm).2) :
    sc.previous ≠ sc.current := by
  unfold on_retry_timer_expire at h
  by_cases hrt : cm.retry_timer
  · simp only [hrt, if_true] at h
    exact request_state_emits_ne _ _ _ h
  · simp [hrt] at h

/-- The suspended-TTL task body, fired from a non-`SUSPENDED` state, emits
only the transition into `SUSPENDED`. -/
theorem ttl_fire_emits_ne (cm : ConnectionManager) (sc : ConnectionStateChange)
    (hs : cm.state ≠ ConnectionState.suspended)
    (h : Effect.emitConnectionState sc ∈ (start_suspended_timer_body cm).2) :
    sc.previous ≠ sc.current := by
  unfold start_suspended_timer_body at h
  rcases hd : cm.connection_details with _ | d <;>
    simp [hd, enact_emits] at h <;>
    (subst h; simpa using hs)

/-- `on_connection_attempt_done` only emits `DISCONNECTED` from a
non-`DISCONNECTED` state. -/
theorem attempt_done_emits_ne (cm : ConnectionManager) (exc : Option AblyException)
    (sc : ConnectionStateChange)
    (h : Effect.emitConnectionState sc ∈ (on_connection_attempt_done cm exc).2) :
    sc.previous ≠ sc.current := by
  unfold on_connection_attempt_done at h
  rcases exc with _ | e
  · cases h
  · by_cases hterm : cm.state = ConnectionState.closed ∨ cm.state = ConnectionState.failed
    · simp [hterm] at h
    · by_cases hdis : cm.state = ConnectionState.disconnected
      · simp [hterm, hdis] at h
      · by_cases hcf : cm.connected_future = none <;>
          simp [hterm, hdis, hcf, enact_emits] at h <;>
          (subst h; simpa using hdis)

/-- The retry path emits either the guarded `CONNECTING` transition (probe
reachable) or, when the probe fails and the state differs from `fail_state`,
the transition back into `fail_state`. -/
theorem retry_attempt_emits_ne (cm : ConnectionManager) (probe_ok : Bool)
    (sc : ConnectionStateChange)
    (hg : ¬(probe_ok = false ∧ cm.state = cm.fail_state))
    (h : Effect.emitConnectionState sc ∈ (retry_connection_attempt cm probe_ok).2) :
    sc.previous ≠ sc.current := by
  unfold retry_connection_attempt at h
  cases probe_ok with
  | true =>
      rcases hmc : _connect cm with ⟨cm2, e⟩
      rw [hmc] at h
      simp at h
      exact connect_task_emits_ne _ sc (by rw [hmc]; exact h)
  | false =>
      have hs : cm.state ≠ cm.fail_state := fun he => hg ⟨rfl, he⟩
      simp [enact_emits] at h
      subst h
      simpa using hs

/-- C1 amended: for every operation from every manager state, each emitted
`ConnectionStateChange` on `connectionstate` has a non-`UPDATE` event and
satisfies `previous ≠ current`, unless the operation is one of the unguarded
re-emission paths (`close` while already `CLOSED`/`CLOSING`, a
connection-scope `ERROR` while already `FAILED`, transport deactivation while
already `DISCONNECTED`, the suspended-TTL task firing while already
`SUSPENDED`, or the retry probe failing while already in `fail_state`), which
re-announce the current state with `previous = current`. -/
theorem state_change_previous_ne_current (cm : ConnectionManager) (op : Op)
    (h : unguarded_reemission cm op = false) :
    ∀ sc, Effect.emitConnectionState sc ∈ (step cm op).2 →
      sc.event ≠ ConnectionEvent.update → sc.previous ≠ sc.current := by
  intro sc hmem hev
  cases op with
  | connectOp => exact connect_emits_ne cm sc hmem
  | closeOp t =>
      have h1 : cm.state ≠ ConnectionState.closed := by
        intro he
        simp [unguarded_reemission, he] at h
      have h2 : cm.state ≠ ConnectionState.closing := by
        intro he
        simp [unguarded_reemission, he] at h
      exact close_emits_ne cm t sc h1 h2 hmem
  | pingOp i => exact absurd hmem (ping_no_state_emission cm i sc)
  | onConnectedOp d => exact on_connected_emits_ne cm d sc hmem
  | onErrorOp ch e =>
      refine on_error_emits_ne cm ch e sc ?_ hmem
      rintro ⟨hch, hst⟩
      simp [unguarded_reemission, hch, hst] at h
  | onClosedOp => exact absurd hmem (on_closed_no_state_emission cm sc)
  | onHeartbeatOp i => exact absurd hmem (on_heartbeat_no_state_emission cm i sc)
  | deactivateTransportOp r =>
      refine deactivate_transport_emits_ne cm r sc ?_ hmem
      intro he
      simp [unguarded_reemission, he] at h
  | requestStateOp s => exact request_state_emits_ne cm s sc hmem
  | notifyStateOp s r => exact notify_state_emits_ne cm s r sc hmem
  | transitionTimerExpireOp => exact transition_timer_emits_ne cm sc hmem
  | suspendTimerExpireOp => exact suspend_timer_emits_ne cm sc hmem
  | ttlTaskFireOp =>
      refine ttl_fire_emits_ne cm sc ?_ hmem
      intro he
      simp [unguarded_reemission, he] at h
  | retryTimerExpireOp => exact retry_timer_emits_ne cm sc hmem
  | connectionAttemptDoneOp e => exact attempt_done_emits_ne cm e sc hmem
  | retryAttemptOp p =>
      refine retry_attempt_emits_ne cm p sc ?_ hmem
      rintro ⟨hp, hst⟩
      simp [unguarded_reemission, hp, hst] at h

/-- Witness for `state_change_previous_ne_current` at the concrete input
`mkManager INITIALIZED`, `close`: the guard holds and the single emission is
`INITIALIZED → CLOSED`. -/
theorem state_change_previous_ne_current_witness :
    unguarded_reemission (mkManager ConnectionState.initialized) (Op.closeOp true)
      = false ∧
    (∀ sc, Effect.emitConnectionState sc ∈
        (step (mkManager ConnectionState.initialized) (Op.closeOp true)).2 →
      sc.event ≠ ConnectionEvent.update → sc.previous ≠ sc.current) :=
  ⟨rfl, state_change_previous_ne_current (mkManager ConnectionState.initialized)
    (Op.closeOp true) rfl⟩

/-- Witness for `on_heartbeat_spec` at a concrete manager with an outstanding
ping of id `5`, a matching heartbeat, and timestamps `0` and `1`. -/
theorem on_heartbeat_spec_witness :
    (Effect.resolvePing ∈ (on_heartbeat pingArmedCM (some 5)).2 ↔
      pingArmedCM.ping_future = some FutState.pending ∧ pingArmedCM.ping_id = some 5) ∧
    ((on_heartbeat pingArmedCM (some 5)).1.ping_future = none ↔
      pingArmedCM.ping_future = none ∨ pingArmedCM.ping_id = some 5) ∧
    ((on_heartbeat pingArmedCM (some 5)).1.ping_future ≠ none →
      (on_heartbeat pingArmedCM (some 5)).1 = pingArmedCM) ∧
    ping_response_time_ms 0 1 = pyRound2 ((1 - 0) * 1000) :=
  on_heartbeat_spec pingArmedCM (some 5) 0 1

/-- Witness for `check_connection_spec` at the default URL with a `204`
response whose body contains the token. -/
theorem check_connection_spec_witness :
    check_connection sampleOptions.connectivity_check_url
        sampleOptions.connectivity_check_url
        (HttpGetResult.response 204 yesBody) = true ↔
      ∃ s t, HttpGetResult.response 204 yesBody = HttpGetResult.response s t ∧
        200 ≤ s ∧ s < 300 ∧
        (sampleOptions.connectivity_check_url = sampleOptions.connectivity_check_url →
          containsYes t = true) :=
  check_connection_spec sampleOptions.connectivity_check_url
    sampleOptions.connectivity_check_url (HttpGetResult.response 204 yesBody)

end Ably
